import Mathlib

/-
Verification of the password generator and strength checker
(repository file `password.py`).

Strings are embedded as `List Char`.  The global pseudorandom source
(`random.choice`) is embedded by passing an explicit stream of draws
`choices : Nat → Nat`; each draw selects the index `choices i % pool.length`
of the character pool, which covers every sequence of choices the real
random source can make.  Python's `range(length)` over a possibly negative
`length` is embedded as `List.range length.toNat` for `length : Int`
(`Int.toNat` maps nonpositive integers to 0, matching `range`).
Fallible functions return `Except String α`, where the `String` carries
the message of the raised `ValueError`.
-/

namespace PasswordGenerator

/-- Fixed lowercase alphabet, `string.ascii_lowercase` in the source. -/
def ascii_lowercase : List Char := "abcdefghijklmnopqrstuvwxyz".toList

/-- Fixed uppercase alphabet, `string.ascii_uppercase` in the source. -/
def ascii_uppercase : List Char := "ABCDEFGHIJKLMNOPQRSTUVWXYZ".toList

/-- Fixed digit alphabet, `string.digits` in the source. -/
def digits : List Char := "0123456789".toList

/-- Fixed symbol alphabet: the literal string on lines 29 and 60 of
`password.py`.  (`\x7b` and `\x7d` are the brace characters.) -/
def symbols : List Char := "!@#$%^&*()_+-=[]\x7b\x7d|;:,.<>?".toList

/-- The character pool built in `generate_password` (lines 20 to 29):
start from the empty string and append each selected class alphabet
in the order lowercase, uppercase, digits, symbols. -/
def character_pool (use_uppercase use_lowercase use_digits use_symbols : Bool) :
    List Char :=
  let pool : List Char := []
  let pool := if use_lowercase then pool ++ ascii_lowercase else pool
  let pool := if use_uppercase then pool ++ ascii_uppercase else pool
  let pool := if use_digits then pool ++ digits else pool
  if use_symbols then pool ++ symbols else pool

/-- One draw of `random.choice(character_pool)`: an arbitrary element of the
pool, selected by the random stream value `r` taken modulo the pool size.
The default is never used, since the pool is nonempty when this runs. -/
def random_choice (pool : List Char) (r : Nat) : Char :=
  pool.getD (r % pool.length) 'a'

/-- `generate_password` (lines 4 to 38): build the pool, raise
`ValueError` when it is empty, otherwise draw `length` characters.
Default arguments as in the Python signature: length 12, all four
classes enabled. -/
def generate_password (choices : Nat → Nat) (length : Int := 12)
    (use_uppercase : Bool := true) (use_lowercase : Bool := true)
    (use_digits : Bool := true) (use_symbols : Bool := true) :
    Except String (List Char) :=
  let pool := character_pool use_uppercase use_lowercase use_digits use_symbols
  if pool = [] then
    Except.error "At least one character type must be selected!"
  else
    Except.ok ((List.range length.toNat).map fun i => random_choice pool (choices i))

/-- The loop body of `generate_multiple_passwords` (lines 42 to 45):
append one generated password per iteration, propagating the first
error.  `i` numbers the iterations so each call gets its own slice
`choices i` of the random stream. -/
def generate_multiple_go (choices : Nat → Nat → Nat) (length : Int)
    (use_uppercase use_lowercase use_digits use_symbols : Bool) :
    Nat → Nat → Except String (List (List Char))
  | 0, _ => Except.ok []
  | Nat.succ n, i =>
    match generate_password (choices i) length use_uppercase use_lowercase
        use_digits use_symbols with
    | Except.error e => Except.error e
    | Except.ok pw =>
      match generate_multiple_go choices length use_uppercase use_lowercase
          use_digits use_symbols n (i + 1) with
      | Except.error e => Except.error e
      | Except.ok rest => Except.ok (pw :: rest)

/-- `generate_multiple_passwords` (lines 40 to 45).  Defaults: count 5,
length 12; the class flags are forwarded as keyword arguments, so an
omitted flag falls back to `generate_password`'s default `true`. -/
def generate_multiple_passwords (choices : Nat → Nat → Nat) (count : Nat := 5)
    (length : Int := 12) (use_uppercase : Bool := true)
    (use_lowercase : Bool := true) (use_digits : Bool := true)
    (use_symbols : Bool := true) : Except String (List (List Char)) :=
  generate_multiple_go choices length use_uppercase use_lowercase use_digits
    use_symbols count 0

/-- The dictionary returned by `check_password_strength` (lines 71 to 79). -/
structure StrengthReport where
  score : Nat
  strength : String
  length : Nat
  has_lowercase : Bool
  has_uppercase : Bool
  has_digits : Bool
  has_symbols : Bool
deriving DecidableEq, Repr

/-- The `strength_levels` dictionary lookup (lines 64 to 69, line 73):
`strength_levels.get(score, "Very Weak")`. -/
def strength_levels (score : Nat) : String :=
  if score = 1 then "Weak"
  else if score = 2 then "Fair"
  else if score = 3 then "Good"
  else if score = 4 then "Strong"
  else "Very Weak"

/-- `check_password_strength` (lines 47 to 79).  Python's
`str.islower`, `str.isupper`, `str.isdigit` agree with the ASCII
predicates on the ASCII strings this program handles. -/
def check_password_strength (password : List Char) : StrengthReport :=
  let has_lower := password.any Char.isLower
  let has_upper := password.any Char.isUpper
  let has_digit := password.any Char.isDigit
  let has_symbol := password.any fun c => symbols.contains c
  let score := (if has_lower then 1 else 0) + (if has_upper then 1 else 0)
    + (if has_digit then 1 else 0) + (if has_symbol then 1 else 0)
  { score := score
    strength := strength_levels score
    length := password.length
    has_lowercase := has_lower
    has_uppercase := has_upper
    has_digits := has_digit
    has_symbols := has_symbol }

end PasswordGenerator

namespace PasswordGenerator

/-- The pool equals the concatenation of the selected class alphabets in the
fixed order lowercase, uppercase, digits, symbols. -/
theorem character_pool_eq (u l d s : Bool) :
    character_pool u l d s =
      (if l then ascii_lowercase else []) ++ (if u then ascii_uppercase else [])
        ++ (if d then digits else []) ++ (if s then symbols else []) := by
  cases u <;> cases l <;> cases d <;> cases s <;> rfl

/-- The pool is empty exactly when all four class flags are false. -/
theorem character_pool_eq_nil_iff (u l d s : Bool) :
    character_pool u l d s = [] ↔ (u || l || d || s) = false := by
  cases u <;> cases l <;> cases d <;> cases s <;> decide

/-- Membership in the pool is membership in a selected class alphabet. -/
theorem mem_character_pool {c : Char} {u l d s : Bool} :
    c ∈ character_pool u l d s ↔
      (l = true ∧ c ∈ ascii_lowercase) ∨ (u = true ∧ c ∈ ascii_uppercase)
        ∨ (d = true ∧ c ∈ digits) ∨ (s = true ∧ c ∈ symbols) := by
  rw [character_pool_eq]
  cases u <;> cases l <;> cases d <;> cases s <;> simp [List.mem_append]

/-- Each draw from a nonempty pool yields an element of the pool. -/
theorem random_choice_mem {pool : List Char} (h : pool ≠ []) (r : Nat) :
    random_choice pool r ∈ pool := by
  have hpos : 0 < pool.length := List.length_pos.mpr h
  have hlt : r % pool.length < pool.length := Nat.mod_lt _ hpos
  unfold random_choice
  rw [List.getD_eq_getElem _ _ hlt]
  exact List.getElem_mem hlt

/-- When the pool is nonempty, generation succeeds with the mapped draws. -/
theorem generate_password_eq_ok {u l d s : Bool} (choices : Nat → Nat) (L : Int)
    (h : character_pool u l d s ≠ []) :
    generate_password choices L u l d s =
      Except.ok ((List.range L.toNat).map fun i =>
        random_choice (character_pool u l d s) (choices i)) := by
  unfold generate_password
  simp [h]

/-- When the pool is empty, generation raises the `ValueError` message. -/
theorem generate_password_eq_error {u l d s : Bool} (choices : Nat → Nat) (L : Int)
    (h : character_pool u l d s = []) :
    generate_password choices L u l d s =
      Except.error "At least one character type must be selected!" := by
  unfold generate_password
  simp [h]

/-- If some class flag is true, the pool is nonempty. -/
theorem flags_of_pool_ne_nil {u l d s : Bool} (hflag : (u || l || d || s) = true) :
    character_pool u l d s ≠ [] := by
  intro h0
  rw [character_pool_eq_nil_iff] at h0
  rw [h0] at hflag
  exact Bool.false_ne_true hflag

/-- C1: for every call to `generate_password` with at least one of the four
class flags true and length `L ≥ 0`, the returned password is a string of
length exactly `L` and every character in it belongs to the union of the
fixed alphabets of the selected classes. -/
theorem generate_password_length_and_class_membership (choices : Nat → Nat)
    (L : Int) (u l d s : Bool) (hL : 0 ≤ L) (hflag : (u || l || d || s) = true) :
    ∃ pw, generate_password choices L u l d s = Except.ok pw ∧
      (pw.length : Int) = L ∧
      ∀ c ∈ pw, (l = true ∧ c ∈ ascii_lowercase) ∨ (u = true ∧ c ∈ ascii_uppercase)
        ∨ (d = true ∧ c ∈ digits) ∨ (s = true ∧ c ∈ symbols) := by
  have hne := flags_of_pool_ne_nil hflag
  refine ⟨_, generate_password_eq_ok choices L hne, ?_, ?_⟩
  · rw [List.length_map, List.length_range]
    exact Int.toNat_of_nonneg hL
  · intro c hc
    rw [List.mem_map] at hc
    obtain ⟨i, _, rfl⟩ := hc
    exact mem_character_pool.mp (random_choice_mem hne _)

/-- C1 witness: the single-password property at length 3 with only the
lowercase class selected. -/
theorem generate_password_length_and_class_membership_witness :
    ∃ pw, generate_password (fun _ => 0) 3 false true false false = Except.ok pw ∧
      (pw.length : Int) = 3 ∧
      ∀ c ∈ pw, (true = true ∧ c ∈ ascii_lowercase) ∨ (false = true ∧ c ∈ ascii_uppercase)
        ∨ (false = true ∧ c ∈ digits) ∨ (false = true ∧ c ∈ symbols) :=
  generate_password_length_and_class_membership (fun _ => 0) 3 false true false false
    (by decide) (by decide)

/-- C2 counterexample: with all four flags false the raised error carries the
message "At least one character type must be selected!", which is not the
message "at least one character class must be selected" stated by the claim. -/
theorem generate_password_error_message_counterexample :
    generate_password (fun _ => 0) 12 false false false false =
        Except.error "At least one character type must be selected!" ∧
      "At least one character type must be selected!" ≠
        "at least one character class must be selected" :=
  ⟨rfl, by decide⟩

/-- C2 (amended): `generate_password` raises its single error, the
`ValueError` carrying the message "At least one character type must be
selected!", exactly when all four class flags are false, regardless of the
requested length; no password is produced in that case, and no other error
is raised for any other input. -/
theorem generate_password_error_iff (choices : Nat → Nat) (L : Int)
    (u l d s : Bool) (e : String) :
    generate_password choices L u l d s = Except.error e ↔
      (e = "At least one character type must be selected!" ∧
        u = false ∧ l = false ∧ d = false ∧ s = false) := by
  by_cases hp : character_pool u l d s = []
  · have hflag := (character_pool_eq_nil_iff u l d s).mp hp
    have hu : u = false := by
      cases u
      · rfl
      · simp at hflag
    have hl : l = false := by
      cases l
      · rfl
      · simp [hu] at hflag
    have hd : d = false := by
      cases d
      · rfl
      · simp [hu, hl] at hflag
    have hs : s = false := by
      cases s
      · rfl
      · simp [hu, hl, hd] at hflag
    rw [generate_password_eq_error choices L hp]
    simp [hu, hl, hd, hs, eq_comm]
  · rw [generate_password_eq_ok choices L hp]
    simp only [false_iff, reduceCtorEq]
    intro he
    exact hp ((character_pool_eq_nil_iff u l d s).mpr
      (by simp [he.2.1, he.2.2.1, he.2.2.2.1, he.2.2.2.2]))

/-- C3: for every string `s`, `check_password_strength s` computes the four
class-presence predicates (lowercase, uppercase, digit, symbol from the fixed
symbol set), its score is the count of the true predicates, the score never
exceeds 4, and the report records the length of `s`. -/
theorem check_password_strength_spec (s : List Char) :
    ((check_password_strength s).has_lowercase = true ↔ ∃ c ∈ s, c.isLower = true) ∧
    ((check_password_strength s).has_uppercase = true ↔ ∃ c ∈ s, c.isUpper = true) ∧
    ((check_password_strength s).has_digits = true ↔ ∃ c ∈ s, c.isDigit = true) ∧
    ((check_password_strength s).has_symbols = true ↔ ∃ c ∈ s, c ∈ symbols) ∧
    (check_password_strength s).score =
      ((if (check_password_strength s).has_lowercase then 1 else 0)
        + (if (check_password_strength s).has_uppercase then 1 else 0)
        + (if (check_password_strength s).has_digits then 1 else 0)
        + (if (check_password_strength s).has_symbols then 1 else 0)) ∧
    (check_password_strength s).score ≤ 4 ∧
    (check_password_strength s).length = s.length := by
  unfold check_password_strength
  refine ⟨List.any_eq_true, List.any_eq_true, List.any_eq_true, ?_, rfl, ?_, rfl⟩
  · rw [List.any_eq_true]
    simp
  · cases s.any Char.isLower <;> cases s.any Char.isUpper <;>
      cases s.any Char.isDigit <;> cases s.any (fun c => symbols.contains c) <;> simp

/-- C4: the character pool is the concatenation of the selected fixed
alphabets in the order lowercase, uppercase, digits, symbols, omitting
unselected classes; in particular the pool for lowercase and digits only is
exactly "abcdefghijklmnopqrstuvwxyz0123456789". -/
theorem character_pool_concatenation :
    (∀ u l d s : Bool, character_pool u l d s =
      (if l then ascii_lowercase else []) ++ (if u then ascii_uppercase else [])
        ++ (if d then digits else []) ++ (if s then symbols else [])) ∧
    character_pool false true true false =
      "abcdefghijklmnopqrstuvwxyz0123456789".toList :=
  ⟨character_pool_eq, by decide⟩

/-- C5 counterexample: the fixed symbol alphabet does not have 27
characters. -/
theorem symbols_length_counterexample : ¬ (symbols.length = 27) := by decide

/-- C5 (amended): the fixed symbols alphabet used by both the pool builder
and the strength scorer is exactly the literal symbol string of the source,
in order, and it contains 26 characters. -/
theorem symbols_spec :
    symbols = "!@#$%^&*()_+-=[]\x7b\x7d|;:,.<>?".toList ∧
    symbols.length = 26 ∧
    character_pool false false false true = symbols ∧
    (∀ s : List Char,
      (check_password_strength s).has_symbols = s.any fun c => symbols.contains c) :=
  ⟨rfl, by decide, by decide, fun _ => rfl⟩

/-- C7: `check_password_strength` on "abc123" yields score 2, flags lower
true, upper false, digit true, symbol false, label "Fair", length 6; on
"Ab1!" score 4, label "Strong", length 4; on the empty string score 0,
label "Very Weak", length 0; and the label mapping is the fixed total map
0 Very Weak, 1 Weak, 2 Fair, 3 Good, 4 Strong. -/
theorem check_password_strength_examples :
    check_password_strength "abc123".toList =
      { score := 2, strength := "Fair", length := 6, has_lowercase := true,
        has_uppercase := false, has_digits := true, has_symbols := false } ∧
    (check_password_strength "Ab1!".toList).score = 4 ∧
    (check_password_strength "Ab1!".toList).strength = "Strong" ∧
    (check_password_strength "Ab1!".toList).length = 4 ∧
    (check_password_strength []).score = 0 ∧
    (check_password_strength []).strength = "Very Weak" ∧
    (check_password_strength []).length = 0 ∧
    strength_levels 0 = "Very Weak" ∧ strength_levels 1 = "Weak" ∧
    strength_levels 2 = "Fair" ∧ strength_levels 3 = "Good" ∧
    strength_levels 4 = "Strong" := by
  decide

/-- C8: `check_password_strength` is a pure deterministic function of its
input string: two calls on the same string yield identical reports. -/
theorem check_password_strength_deterministic (password : List Char) :
    check_password_strength password = check_password_strength password := rfl

/-- With a nonempty pool, every iteration of the batch loop succeeds, and
each produced password has the requested length and draws from the pool. -/
theorem generate_multiple_go_ok (choices : Nat → Nat → Nat) (L : Int)
    {u l d s : Bool} (h : character_pool u l d s ≠ []) (n : Nat) :
    ∀ i, ∃ pws, generate_multiple_go choices L u l d s n i = Except.ok pws ∧
      pws.length = n ∧
      ∀ pw ∈ pws, pw.length = L.toNat ∧ ∀ c ∈ pw, c ∈ character_pool u l d s := by
  induction n with
  | zero => exact fun i => ⟨[], rfl, rfl, by simp⟩
  | succ n ih =>
    intro i
    obtain ⟨pws, hgo, hlen, hmem⟩ := ih (i + 1)
    refine ⟨((List.range L.toNat).map fun k =>
      random_choice (character_pool u l d s) (choices i k)) :: pws, ?_, ?_, ?_⟩
    · unfold generate_multiple_go
      rw [generate_password_eq_ok (choices i) L h, hgo]
    · simp [hlen]
    · intro pw hpw
      rcases List.mem_cons.mp hpw with hpw | hpw
      · subst hpw
        refine ⟨by simp, ?_⟩
        intro c hc
        rw [List.mem_map] at hc
        obtain ⟨k, _, rfl⟩ := hc
        exact random_choice_mem h _
      · exact hmem pw hpw

/-- With an empty pool, the batch loop fails on its first iteration. -/
theorem generate_multiple_go_error (choices : Nat → Nat → Nat) (L : Int)
    {u l d s : Bool} (h : character_pool u l d s = []) (n i : Nat) :
    generate_multiple_go choices L u l d s (n + 1) i =
      Except.error "At least one character type must be selected!" := by
  unfold generate_multiple_go
  rw [generate_password_eq_error (choices i) L h]

/-- C6 counterexample: with count 0 and zero classes selected, the batch
generator returns the empty sequence instead of propagating the builder
error, so the unconditional error-propagation clause of the claim fails. -/
theorem generate_multiple_count_zero_counterexample :
    generate_multiple_passwords (fun _ _ => 0) 0 12 false false false false =
      Except.ok [] := rfl

/-- C6 (amended): `generate_multiple_passwords` returns an ordered sequence
of exactly `count` passwords, each of the requested length and drawn from
the selected classes' pool; when `count` is 0 it returns the empty sequence
even if the configuration is invalid; and when the configuration selects
zero classes and `count ≥ 1` it propagates the builder's error unchanged. -/
theorem generate_multiple_passwords_spec (choices : Nat → Nat → Nat) (count : Nat)
    (L : Int) (u l d s : Bool) :
    ((u || l || d || s) = true →
      ∃ pws, generate_multiple_passwords choices count L u l d s = Except.ok pws ∧
        pws.length = count ∧
        ∀ pw ∈ pws, pw.length = L.toNat ∧ ∀ c ∈ pw, c ∈ character_pool u l d s) ∧
    (count = 0 → generate_multiple_passwords choices count L u l d s = Except.ok []) ∧
    ((u || l || d || s) = false → 1 ≤ count →
      generate_multiple_passwords choices count L u l d s =
        Except.error "At least one character type must be selected!") := by
  refine ⟨?_, ?_, ?_⟩
  · intro hflag
    exact generate_multiple_go_ok choices L (flags_of_pool_ne_nil hflag) count 0
  · intro hc
    subst hc
    rfl
  · intro hflag hcount
    obtain ⟨n, rfl⟩ := Nat.exists_eq_add_of_le hcount
    rw [Nat.add_comm 1 n]
    exact generate_multiple_go_error choices L
      ((character_pool_eq_nil_iff u l d s).mpr hflag) n 0

/-- C6 witness: a batch of 2 passwords of length 3 from the lowercase
class. -/
theorem generate_multiple_passwords_spec_witness :
    ∃ pws, generate_multiple_passwords (fun _ _ => 0) 2 3 true false false false =
        Except.ok pws ∧ pws.length = 2 ∧
      ∀ pw ∈ pws, pw.length = (3 : Int).toNat ∧
        ∀ c ∈ pw, c ∈ character_pool true false false false :=
  (generate_multiple_passwords_spec (fun _ _ => 0) 2 3 true false false false).1
    (by decide)

/-- C9: for every length `L ≤ 0` with at least one class flag true,
`generate_password` does not raise and returns the empty string. -/
theorem generate_password_nonpositive_length (choices : Nat → Nat) (L : Int)
    (u l d s : Bool) (hL : L ≤ 0) (hflag : (u || l || d || s) = true) :
    generate_password choices L u l d s = Except.ok [] := by
  rw [generate_password_eq_ok choices L (flags_of_pool_ne_nil hflag),
    Int.toNat_of_nonpos hL]
  rfl

/-- C9 witness: length -3 with all classes enabled yields the empty
password. -/
theorem generate_password_nonpositive_length_witness :
    generate_password (fun _ => 0) (-3) true true true true = Except.ok [] :=
  generate_password_nonpositive_length (fun _ => 0) (-3) true true true true
    (by decide) (by decide)

/-- C10: with the optional arguments omitted, `generate_password` defaults
to length 12 with all four classes enabled (so it succeeds with a password
of length 12), and `generate_multiple_passwords` defaults to count 5 and
length 12 with the same class defaults forwarded (so it succeeds with 5
passwords of length 12). -/
theorem default_arguments_spec :
    (∀ choices : Nat → Nat, generate_password choices =
        generate_password choices 12 true true true true) ∧
    (∀ choices : Nat → Nat, ∃ pw, generate_password choices = Except.ok pw ∧
        pw.length = 12) ∧
    (∀ choices : Nat → Nat → Nat, generate_multiple_passwords choices =
        generate_multiple_passwords choices 5 12 true true true true) ∧
    (∀ choices : Nat → Nat → Nat, ∃ pws,
        generate_multiple_passwords choices = Except.ok pws ∧ pws.length = 5 ∧
        ∀ pw ∈ pws, pw.length = 12) := by
  refine ⟨fun _ => rfl, ?_, fun _ => rfl, ?_⟩
  · intro choices
    have hne : character_pool true true true true ≠ [] := by decide
    exact ⟨_, generate_password_eq_ok choices 12 hne, by simp⟩
  · intro choices
    have hne : character_pool true true true true ≠ [] := by decide
    obtain ⟨pws, hgo, hlen, hmem⟩ := generate_multiple_go_ok choices 12 hne 5 0
    exact ⟨pws, hgo, hlen, fun pw hpw => (hmem pw hpw).1⟩

end PasswordGenerator
